import Mathlib

/-!
Verification of the CAVEcanary sampling-and-cross-validation engine.

Shallow embedding of the repository's two `Canary` implementations:
* `canary/__init__.py` (the current async package) — `check_root_ids`,
  `query_data_and_check_roots`, `check_random_annotations`,
  `send_slack_notification`, `run`;
* `canary.py` (the older synchronous module) — `check_random_annotations`
  with the bounded random-offset sampler and its `check_root_ids`.

External collaborators (the materialization store, the chunkedgraph
resolver, the Slack client) are modelled as function parameters returning
`Except`, mirroring the raise/return behaviour the Python code observes.
A pandas DataFrame is modelled column-major as a list of named columns of
ids, which is exactly the access pattern the source uses
(pandas column access by name and boolean-mask row filtering).
-/

namespace CAVECanary

/-- Column-name suffix for supervoxel columns, from
`col.endswith ("_supervoxel_id")` in both versions of `check_root_ids`. -/
def supervoxelSuffix : String := "_supervoxel_id"

/-- Column-name suffix for root-id columns in `canary/__init__.py`:
`col.endswith ("_root_id")`. -/
def rootIdSuffix : String := "_root_id"

/-- Python's `s.endswith(p)`: the last `len(p)` characters of `s` are
`p` (stated over the character lists so concrete instances evaluate). -/
def strEndsWith (s p : String) : Bool :=
  decide (s.data.reverse.take p.data.length = p.data.reverse)

/-- Python's character slice `s[:-n]`: all but the last `n` characters. -/
def dropRightChars (s : String) (n : Nat) : String :=
  String.mk (s.data.take (s.data.length - n))

/-- Column-major model of the pandas DataFrame produced by the sample
query: column name paired with that column's values (ids are unsigned
integers, modelled as `Nat`; no arithmetic is performed on them). -/
structure DataFrame where
  cols : List (String × List Nat)
deriving DecidableEq

/-- `df.columns` of pandas. -/
def DataFrame.columns (df : DataFrame) : List String :=
  df.cols.map Prod.fst

/-- `df[name].values` of pandas: the value list of a named column
(empty when the column is absent; the source only reads columns it has
just found among `df.columns`). -/
def DataFrame.getCol (df : DataFrame) (name : String) : List Nat :=
  (df.cols.lookup name).getD []

/-- `df.empty` of pandas: no rows (every column empty) or no columns. -/
def DataFrame.isEmpty (df : DataFrame) : Bool :=
  df.cols.all (fun c => c.2.isEmpty)

/-- `[col for col in df.columns if col.endswith("_supervoxel_id")]`. -/
def supervoxelColumns (df : DataFrame) : List String :=
  df.columns.filter (fun c => strEndsWith c supervoxelSuffix)

/-- `[col for col in df.columns if col.endswith("_root_id")]`
(`canary/__init__.py` line 214). -/
def rootIdColumns (df : DataFrame) : List String :=
  df.columns.filter (fun c => strEndsWith c rootIdSuffix)

/-- `root_id_col = f"{supervoxel_col[: -len('_supervoxel_id')]}_root_id"`. -/
def pairRootCol (sv : String) : String :=
  dropRightChars sv supervoxelSuffix.data.length ++ rootIdSuffix

/-- `mismatch = df[root_id_col].values != root_ids` — the numpy
element-wise inequality mask (the resolver contract returns one root per
input id, preserving order and length). -/
def mismatchMask (stored roots : List Nat) : List Bool :=
  List.zipWith (fun a b => decide (a ≠ b)) stored roots

/-- Boolean-mask row selection, as in `df[mismatch]` and
`root_ids[mismatch]`. -/
def maskFilter (mask : List Bool) (xs : List Nat) : List Nat :=
  (mask.zip xs).filterMap (fun p => if p.1 then some p.2 else none)

/-- Content of one Slack mismatch message built in `check_root_ids`
(`canary/__init__.py` lines 239-266): the table name, and for the mask-selected
bad rows the `id` column, the stored root-id column
(`formatted_bad_db_rows = bad_root_id_rows[["id", root_id_col]]`) and the
resolver's values (`chunkgraph_root_id_values = root_ids[mismatch]`).
The mrkdwn formatting around these fields is elided; the fields are the
whole data content of the message. -/
structure Notification where
  table : String
  rowIds : List Nat
  storedRootIds : List Nat
  resolvedRootIds : List Nat
deriving DecidableEq

/-- `send_slack_notification` (`canary/__init__.py` lines 270-282): the
`chat_postMessage` call either succeeds or raises `SlackApiError`; the
dispatcher catches the latter and logs it (`none` = delivered, `some e` =
failure caught and logged). It returns normally in both cases. -/
def sendSlackNotification (post : Except String Unit) : Option String :=
  match post with
  | Except.ok _ => none
  | Except.error e => some e

/-- Result of one `check_root_ids` call: the returned `errors_found`
flag, the dispatched notifications in order (each with the logged
delivery failure, if any), and the logged resolver errors
(`logging.error(e)` in the `get_roots` except-branch). -/
structure CheckResult where
  errorsFound : Bool
  notifications : List (Notification × Option String)
  resolveErrors : List String
deriving DecidableEq

/-- The `for supervoxel_col in supervoxel_columns` loop body of
`check_root_ids` (`canary/__init__.py` lines 216-267), processing the given
list of supervoxel columns in order.  `resolve` models
`self.client.chunkedgraph.get_roots(df[supervoxel_col].values, ...)`
together with the `get_version_metadata` call inside the same `try`
block; `deliver` models the Slack `chat_postMessage` outcome for a
notification. -/
def checkRootIdsAux (resolve : List Nat → Except String (List Nat))
    (deliver : Notification → Except String Unit)
    (df : DataFrame) (tableName : String) : List String → CheckResult
  | [] => ⟨false, [], []⟩
  | sv :: rest =>
    let r := checkRootIdsAux resolve deliver df tableName rest
    if pairRootCol sv ∈ rootIdColumns df then
      match resolve (df.getCol sv) with
      | Except.error e => ⟨r.errorsFound, r.notifications, e :: r.resolveErrors⟩
      | Except.ok rootIds =>
        let stored := df.getCol (pairRootCol sv)
        let mask := mismatchMask stored rootIds
        if mask.any id then
          let n : Notification :=
            ⟨tableName, maskFilter mask (df.getCol "id"),
             maskFilter mask stored, maskFilter mask rootIds⟩
          ⟨true, (n, sendSlackNotification (deliver n)) :: r.notifications,
           r.resolveErrors⟩
        else r
    else r

/-- `check_root_ids(df, table_name)` of `canary/__init__.py`. -/
def checkRootIds (resolve : List Nat → Except String (List Nat))
    (deliver : Notification → Except String Unit)
    (df : DataFrame) (tableName : String) : CheckResult :=
  checkRootIdsAux resolve deliver df tableName (supervoxelColumns df)

/-- Per-column-pair notification content: `some n` exactly when the pair
is active (a matching root-id column exists), its resolver call succeeds,
and at least one row mismatches; `n` then holds the mask-selected rows.
Derived projection of the loop body, used to characterise the fold. -/
def pairNotif (resolve : List Nat → Except String (List Nat))
    (df : DataFrame) (tableName : String) (sv : String) : Option Notification :=
  if pairRootCol sv ∈ rootIdColumns df then
    match resolve (df.getCol sv) with
    | Except.error _ => none
    | Except.ok rootIds =>
      let stored := df.getCol (pairRootCol sv)
      let mask := mismatchMask stored rootIds
      if mask.any id then
        some ⟨tableName, maskFilter mask (df.getCol "id"),
              maskFilter mask stored, maskFilter mask rootIds⟩
      else none
  else none

/-- Per-column-pair recorded resolver error: `some e` exactly when the
pair is active and its resolver call fails. -/
def pairResolveError (resolve : List Nat → Except String (List Nat))
    (df : DataFrame) (sv : String) : Option String :=
  if pairRootCol sv ∈ rootIdColumns df then
    match resolve (df.getCol sv) with
    | Except.error e => some e
    | Except.ok _ => none
  else none

/-- The `check_root_ids` loop is, observably, a per-pair map: the
notifications are exactly the per-pair notifications in column order,
the returned flag says whether there is at least one, and the recorded
errors are the per-pair resolver errors. -/
theorem checkRootIdsAux_char (resolve : List Nat → Except String (List Nat))
    (deliver : Notification → Except String Unit)
    (df : DataFrame) (tableName : String) (svs : List String) :
    checkRootIdsAux resolve deliver df tableName svs =
      ⟨!(svs.filterMap (pairNotif resolve df tableName)).isEmpty,
       (svs.filterMap (pairNotif resolve df tableName)).map
         (fun n => (n, sendSlackNotification (deliver n))),
       svs.filterMap (pairResolveError resolve df)⟩ := by
  induction svs with
  | nil => rfl
  | cons sv rest ih =>
    simp only [checkRootIdsAux, ih, List.filterMap_cons]
    by_cases hp : pairRootCol sv ∈ rootIdColumns df
    · simp only [pairNotif, pairResolveError, hp, if_pos]
      cases hres : resolve (df.getCol sv) with
      | error e => simp
      | ok rootIds =>
        by_cases hm :
            (mismatchMask (df.getCol (pairRootCol sv)) rootIds).any id
        · simp [hm]
        · simp [hm]
    · simp [pairNotif, pairResolveError, hp]

/-- `query_data_and_check_roots` (`canary/__init__.py` lines 158-199) given
the outcome of executing the sample query: a query exception is re-raised
(`except Exception as e: raise (e)`), an empty frame short-circuits with
`has_error = False` and no validation, otherwise `check_root_ids` runs. -/
def queryDataAndCheckRoots (resolve : List Nat → Except String (List Nat))
    (deliver : Notification → Except String Unit)
    (queryResult : Except String DataFrame) (tableName : String) :
    Except String CheckResult :=
  match queryResult with
  | Except.error e => Except.error e
  | Except.ok df =>
    if !df.isEmpty then Except.ok (checkRootIds resolve deliver df tableName)
    else Except.ok ⟨false, [], []⟩

/-- Environment of external collaborators seen by the async `Canary`.
`getTables i` is what `client.materialize.get_tables()` would return if
invoked at iteration index `i` (the code invokes it exactly once, before
the loop, i.e. at index 0); `tableHasAnnotationData t` is the truthiness
of `get_table_metadata(t).get("annotation_table")`; `query t` is the
outcome of executing the sample query against table name `t`. -/
structure Env where
  getTables : Nat → List String
  isMerged : Bool
  tableHasAnnotationData : String → Bool
  segSource : String
  query : String → Except String DataFrame
  resolve : List Nat → Except String (List Nat)
  deliver : Notification → Except String Unit

/-- Table-name adjustment of `check_random_annotations`
(`canary/__init__.py` lines 150-156): when the pinned version is not merged,
a table whose metadata has a truthy `annotation_table` entry gets the
`__segmentation_source` suffix; otherwise only a debug line
"Skipping ..." is emitted and the name is left unchanged. -/
def effectiveTableName (env : Env) (tableName : String) : String :=
  if !env.isMerged then
    if env.tableHasAnnotationData tableName then
      tableName ++ "__" ++ env.segSource
    else tableName
  else tableName

/-- `check_random_annotations(table_name, version_info)` of
`canary/__init__.py`: adjusts the table name and unconditionally calls
`query_data_and_check_roots` with it.  The first component records which
table name the sample query was issued against. -/
def checkRandomAnnotationsNew (env : Env) (tableName : String) :
    String × Except String CheckResult :=
  let t := effectiveTableName env tableName
  (t, queryDataAndCheckRoots env.resolve env.deliver (env.query t) t)

instance exceptDecEq {ε α : Type} [DecidableEq ε] [DecidableEq α] :
    DecidableEq (Except ε α) := fun a b =>
  match a, b with
  | Except.ok x, Except.ok y => decidable_of_iff (x = y) (by simp)
  | Except.error x, Except.error y => decidable_of_iff (x = y) (by simp)
  | Except.ok _, Except.error _ => isFalse (fun hc => Except.noConfusion hc)
  | Except.error _, Except.ok _ => isFalse (fun hc => Except.noConfusion hc)

/-- One observable event of the `run` loop: a per-table check (with its
result; an `Except.error` is what `asyncio.gather` catches and logs) or
the `asyncio.sleep(self.check_interval)` suspension. -/
inductive RunEvent
  | check (tableName : String) (r : Except String CheckResult)
  | sleep
deriving DecidableEq

/-- The body of one `while` iteration of `run` (`canary/__init__.py` lines
124-143): one check task per enumerated table, then the inter-iteration
sleep. -/
def iterBlock (env : Env) (tables : List String) : List RunEvent :=
  tables.map (fun t => RunEvent.check t (checkRandomAnnotationsNew env t).2)
    ++ [RunEvent.sleep]

/-- The `while True` loop of `run` with a finite `iterations` argument:
`iteration_count` starts at `count`, the loop breaks as soon as
`iteration_count >= iterations`, and each pass emits one `iterBlock` and
increments the counter. -/
def runLoop (env : Env) (tables : List String) (iterations count : Nat) :
    List RunEvent :=
  if h : iterations ≤ count then []
  else iterBlock env tables ++ runLoop env tables iterations (count + 1)
termination_by iterations - count
decreasing_by omega

/-- `run(iterations=n)` of `canary/__init__.py` for a finite budget `n`:
the table list and version metadata are fetched once, before the loop
(line 121), then the loop runs from `iteration_count = 0`. -/
def runNew (env : Env) (iterations : Nat) : List RunEvent :=
  runLoop env (env.getTables 0) iterations 0

/-- Splits a run trace at the `sleep` events, returning for each
completed iteration the list of tables checked in it. -/
def splitAux (cur : List String) : List RunEvent → List (List String)
  | [] => []
  | RunEvent.check t _ :: rest => splitAux (cur ++ [t]) rest
  | RunEvent.sleep :: rest => cur :: splitAux [] rest

/-- Per-iteration checked-table lists of a run trace. -/
def splitIterations (es : List RunEvent) : List (List String) :=
  splitAux [] es

/-- Number of inter-iteration sleeps in a run trace. -/
def countSleeps (es : List RunEvent) : Nat :=
  es.countP (fun e => match e with | RunEvent.sleep => true | _ => false)

theorem splitAux_checks (cur : List String) (tables : List String)
    (f : String → Except String CheckResult) (es : List RunEvent) :
    splitAux cur (tables.map (fun t => RunEvent.check t (f t)) ++ es) =
      splitAux (cur ++ tables) es := by
  induction tables generalizing cur with
  | nil => simp
  | cons t ts ih => simp [splitAux, ih]

theorem runLoop_char (env : Env) (tables : List String) :
    ∀ (n count iterations : Nat), iterations = count + n →
    runLoop env tables iterations count =
      (List.replicate n (iterBlock env tables)).flatten := by
  intro n
  induction n with
  | zero =>
    intro count iterations hit
    rw [runLoop, dif_pos (by omega)]
    simp
  | succ k ih =>
    intro count iterations hit
    rw [runLoop, dif_neg (by omega)]
    rw [ih (count + 1) iterations (by omega)]
    simp [List.replicate_succ]

theorem runNew_eq (env : Env) (iterations : Nat) :
    runNew env iterations =
      (List.replicate iterations (iterBlock env (env.getTables 0))).flatten :=
  runLoop_char env (env.getTables 0) iterations 0 iterations (by omega)

theorem splitAux_iterBlock (env : Env) (cur tables : List String)
    (es : List RunEvent) :
    splitAux cur (iterBlock env tables ++ es) =
      (cur ++ tables) :: splitAux [] es := by
  rw [iterBlock, List.append_assoc, splitAux_checks]
  rfl

theorem splitAux_join_replicate (env : Env) (tables : List String) (n : Nat) :
    splitAux [] ((List.replicate n (iterBlock env tables)).flatten) =
      List.replicate n tables := by
  induction n with
  | zero => rfl
  | succ k ih =>
    rw [List.replicate_succ, List.flatten_cons, splitAux_iterBlock]
    simp [ih, List.replicate_succ]

theorem splitIterations_runNew (env : Env) (n : Nat) :
    splitIterations (runNew env n) = List.replicate n (env.getTables 0) := by
  rw [splitIterations, runNew_eq, splitAux_join_replicate]

theorem countSleeps_runNew (env : Env) (n : Nat) :
    countSleeps (runNew env n) = n := by
  rw [runNew_eq, countSleeps]
  induction n with
  | zero => rfl
  | succ k ih =>
    rw [List.replicate_succ, List.flatten_cons, List.countP_append, ih,
      iterBlock, List.countP_append]
    rw [List.countP_map]
    rw [List.countP_eq_zero.mpr (by intro a _; simp [Function.comp])]
    simp [List.countP_cons]
    omega

theorem getLast_runNew (env : Env) (n : Nat) :
    (runNew env (n + 1)).getLast? = some RunEvent.sleep := by
  rw [runNew_eq]
  induction n with
  | zero =>
    simp [iterBlock, List.getLast?_concat]
  | succ k ih =>
    rw [List.replicate_succ, List.flatten_cons]
    rw [List.getLast?_append_of_ne_nil]
    · exact ih
    · have := ih
      intro hnil
      rw [hnil] at this
      simp at this

/-- Root-id column suffix of the older `canary.py`:
`col.endswith("_rootid")`. -/
def oldRootIdSuffix : String := "_rootid"

/-- `rootid_col = f"{supervoxel_col[: -len('_supervoxel_id')]}_rootid"`
(`canary.py` lines 37-38). -/
def oldPairRootCol (sv : String) : String :=
  dropRightChars sv supervoxelSuffix.data.length ++ oldRootIdSuffix

/-- `[col for col in df.columns if col.endswith("_rootid")]`. -/
def oldRootIdColumns (df : DataFrame) : List String :=
  df.columns.filter (fun c => strEndsWith c oldRootIdSuffix)

/-- One Slack message of the older `canary.py` (formatted text elided,
data content kept): a `query_table` failure, a `get_roots` failure, or a
per-column mismatch report (`f"Mismatch found in {rootid_col}: {mismatch}"`). -/
inductive OldAlert
  | queryError (e : String)
  | getRootsError (e : String)
  | mismatch (col : String) (mask : List Bool)
deriving DecidableEq

/-- Observable step of the older `check_random_annotations`
(`canary.py` lines 15-28): the row count fetched for a table, the
`query_table` fetch at an offset, a dispatched Slack alert, or the
invocation of `check_root_ids` on a table's sample. -/
inductive OldEvent
  | counted (tableName : String) (n : Nat)
  | fetched (tableName : String) (offset : Int)
  | alerted (a : OldAlert)
  | rootsChecked (tableName : String)
deriving DecidableEq

/-- Whether an event belongs to the processing of the given table. -/
def mentionsTable (t : String) : OldEvent → Bool
  | OldEvent.counted u _ => u == t
  | OldEvent.fetched u _ => u == t
  | OldEvent.rootsChecked u => u == t
  | OldEvent.alerted _ => false

/-- External collaborators of the older synchronous `Canary`
(`canary.py`): `count` is `materialize.get_annotation_count`,
`numSynapses` is `config.NUM_SYNAPSES`, `pick lo hi` is the value
`random.randint(lo, hi)` would return when `lo <= hi`, `queryTable t
offset limit` is `materialize.query_table(t, offset=offset, limit=limit)`,
and `resolve` is `chunkedgraph.get_roots`. -/
structure OldEnv where
  count : String → Nat
  numSynapses : Nat
  pick : Int → Int → Int
  queryTable : String → Int → Nat → Except String DataFrame
  resolve : List Nat → Except String (List Nat)

/-- Python's `random.randint(lo, hi)`: raises `ValueError` when the range
is empty (`hi < lo`), otherwise returns some value in `[lo, hi]`
(here supplied by `pick`). -/
def randint (pick : Int → Int → Int) (lo hi : Int) : Except String Int :=
  if hi < lo then Except.error "ValueError" else Except.ok (pick lo hi)

/-- The `for supervoxel_col in supervoxel_columns` loop of the older
`check_root_ids` (`canary.py` lines 30-58): each active pair either alerts
on a `get_roots` failure and continues, or alerts when its mismatch mask
has a true entry.  Returns the dispatched alerts in order. -/
def checkRootIdsOldAux (resolve : List Nat → Except String (List Nat))
    (df : DataFrame) : List String → List OldAlert
  | [] => []
  | sv :: rest =>
    let r := checkRootIdsOldAux resolve df rest
    if oldPairRootCol sv ∈ oldRootIdColumns df then
      match resolve (df.getCol sv) with
      | Except.error e => OldAlert.getRootsError e :: r
      | Except.ok rootIds =>
        let mask := mismatchMask (df.getCol (oldPairRootCol sv)) rootIds
        if mask.any id then OldAlert.mismatch (oldPairRootCol sv) mask :: r
        else r
    else r

/-- `check_root_ids(df)` of `canary.py`. -/
def checkRootIdsOld (resolve : List Nat → Except String (List Nat))
    (df : DataFrame) : List OldAlert :=
  checkRootIdsOldAux resolve df (supervoxelColumns df)

/-- The `for table in tables` loop of the older
`check_random_annotations` (`canary.py` lines 17-28).  Per table: fetch the
row count, compute `offset = random.randint(0, num_rows -
config.NUM_SYNAPSES)` (an uncaught `ValueError` propagates as
`Except.error`, aborting everything), then try `query_table`; on failure
dispatch one alert and `return` (ending the whole loop — the remaining
tables are not visited); on success run `check_root_ids` and continue. -/
def checkRandomAnnotationsOldAux (env : OldEnv) :
    List String → Except String (List OldEvent)
  | [] => Except.ok []
  | t :: rest =>
    let numRows := env.count t
    match randint env.pick 0 ((numRows : Int) - (env.numSynapses : Int)) with
    | Except.error e => Except.error e
    | Except.ok off =>
      match env.queryTable t off env.numSynapses with
      | Except.error e =>
        Except.ok [OldEvent.counted t numRows,
                   OldEvent.alerted (OldAlert.queryError e)]
      | Except.ok df =>
        match checkRandomAnnotationsOldAux env rest with
        | Except.error e2 => Except.error e2
        | Except.ok tail =>
          Except.ok ([OldEvent.counted t numRows, OldEvent.fetched t off,
                      OldEvent.rootsChecked t]
                     ++ (checkRootIdsOld env.resolve df).map OldEvent.alerted
                     ++ tail)

/-- `check_random_annotations()` of `canary.py`, applied to the table
list returned by `materialize.get_tables()`. -/
def checkRandomAnnotationsOld (env : OldEnv) (tables : List String) :
    Except String (List OldEvent) :=
  checkRandomAnnotationsOldAux env tables

theorem mismatchMask_self_any (xs : List Nat) :
    (mismatchMask xs xs).any id = false := by
  induction xs with
  | nil => rfl
  | cons a as ih => simpa [mismatchMask] using ih

/-- Sample with two column pairs, both mismatching under
`resolveTwoMismatch`: row id 7 stores `a_root_id = 11` (resolves to 99)
and `b_root_id = 44` (resolves to 77). -/
def dfTwoPairs : DataFrame :=
  ⟨[("id", [7]), ("a_supervoxel_id", [1]), ("a_root_id", [11]),
    ("b_supervoxel_id", [4]), ("b_root_id", [44])]⟩

def resolveTwoMismatch : List Nat → Except String (List Nat) :=
  fun xs =>
    match xs with
    | [1] => Except.ok [99]
    | [4] => Except.ok [77]
    | _ => Except.ok xs

def deliverOk : Notification → Except String Unit := fun _ => Except.ok ()

/-- C1, counterexample.  On a sample whose two column pairs both carry a
mismatch, `check_root_ids` dispatches two notifications for the one
(table, iteration) — one per mismatched column pair — refuting "exactly
one notification is dispatched for that (table, iteration) pair … not one
per column pair". -/
theorem c1_counterexample :
    (checkRootIds resolveTwoMismatch deliverOk dfTwoPairs
      "synapses").notifications.length = 2 ∧
    (checkRootIds resolveTwoMismatch deliverOk dfTwoPairs
      "synapses").notifications.length ≠ 1 := by
  decide

/-- C1, amended.  `check_root_ids` dispatches exactly one notification
per (table, iteration, column-pair) whose resolver lookup succeeds and
which has at least one mismatched row — in column order — and each
notification contains all and only the rows mismatched in its own pair
(their row ids, that pair's stored root-id values, and the resolved
values), as spelled out by `pairNotif`; the returned errors-found flag is
set iff at least one such notification exists. -/
theorem c1_one_notification_per_mismatched_pair
    (resolve : List Nat → Except String (List Nat))
    (deliver : Notification → Except String Unit)
    (df : DataFrame) (tableName : String) :
    (checkRootIds resolve deliver df tableName).notifications.map Prod.fst =
      (supervoxelColumns df).filterMap (pairNotif resolve df tableName) ∧
    (checkRootIds resolve deliver df tableName).errorsFound =
      !((supervoxelColumns df).filterMap
        (pairNotif resolve df tableName)).isEmpty := by
  rw [checkRootIds, checkRootIdsAux_char]
  refine ⟨?_, rfl⟩
  rw [List.map_map]
  exact List.map_id _

/-- Environment for a table of 5 rows with a configured sample size of
10: the older sampler's offset bound `num_rows - NUM_SYNAPSES` is then
negative. -/
def envNoClamp : OldEnv :=
  { count := fun _ => 5, numSynapses := 10, pick := fun lo _ => lo,
    queryTable := fun _ _ _ => Except.ok ⟨[]⟩,
    resolve := fun xs => Except.ok xs }

/-- C2.  The offset computation `random.randint(0, num_rows -
config.NUM_SYNAPSES)` has no max-offset clamp: on a table with 5 rows
and sample size 10 it raises `ValueError` (uncaught, aborting the whole
check) instead of choosing offset 0. -/
theorem c2_offset_computation_raises :
    checkRandomAnnotationsOld envNoClamp ["t"] = Except.error "ValueError" ∧
    envNoClamp.count "t" < envNoClamp.numSynapses := by
  decide

/-- A one-pair sample frame whose stored root id matches nothing special;
used as the successful query result for tables other than "a". -/
def dfOnePair : DataFrame :=
  ⟨[("id", [1]), ("p_supervoxel_id", [2]), ("p_rootid", [20])]⟩

/-- Two tables, sample query failing on table "a" only. -/
def envQueryFail : OldEnv :=
  { count := fun _ => 10, numSynapses := 3, pick := fun lo _ => lo,
    queryTable := fun t _ _ =>
      if t == "a" then Except.error "HTTP Error" else Except.ok dfOnePair,
    resolve := fun xs => Except.ok (xs.map (fun x => x * 10)) }

/-- C3, counterexample.  With tables `["a", "b"]` and the sample query
failing on "a", the check alerts and then returns: the resulting trace
contains no event for table "b" at all, refuting "the checks for all
remaining tables of the same iteration still run". -/
theorem c3_counterexample :
    checkRandomAnnotationsOld envQueryFail ["a", "b"] =
      Except.ok [OldEvent.counted "a" 10,
                 OldEvent.alerted (OldAlert.queryError "HTTP Error")] ∧
    ([OldEvent.counted "a" 10,
      OldEvent.alerted (OldAlert.queryError "HTTP Error")].all
      (fun ev => !(mentionsTable "b" ev))) = true := by
  decide

/-- C3, amended.  When executing the sample query for a table raises, the
error is caught at the table boundary and one alert is dispatched for it,
but the per-iteration loop then returns: the error does not propagate to
the process, and none of the remaining tables of the iteration is
checked. -/
theorem c3_query_error_alerts_and_aborts (env : OldEnv) (t : String)
    (rest : List String) (e : String)
    (hcount : env.numSynapses ≤ env.count t)
    (hquery : env.queryTable t
        (env.pick 0 ((env.count t : Int) - (env.numSynapses : Int)))
        env.numSynapses = Except.error e) :
    checkRandomAnnotationsOld env (t :: rest) =
      Except.ok [OldEvent.counted t (env.count t),
                 OldEvent.alerted (OldAlert.queryError e)] := by
  have hle : (env.numSynapses : Int) ≤ (env.count t : Int) := by
    exact_mod_cast hcount
  rw [checkRandomAnnotationsOld, checkRandomAnnotationsOldAux]
  rw [randint, if_neg (by omega)]
  simp [hquery]

/-- C3, witness for the amended theorem at a concrete input. -/
theorem c3_amended_witness :
    envQueryFail.numSynapses ≤ envQueryFail.count "a" ∧
    checkRandomAnnotationsOld envQueryFail ("a" :: ["b", "c"]) =
      Except.ok [OldEvent.counted "a" (envQueryFail.count "a"),
                 OldEvent.alerted (OldAlert.queryError "HTTP Error")] :=
  ⟨by decide,
   c3_query_error_alerts_and_aborts envQueryFail "a" ["b", "c"] "HTTP Error"
     (by decide) (by decide)⟩

/-- A pinned unmerged version and a table whose metadata has no truthy
`annotation_table` entry; its sample still carries a mismatching column
pair. -/
def envUnmergedNoSeg : Env :=
  { getTables := fun _ => ["tab"], isMerged := false,
    tableHasAnnotationData := fun _ => false, segSource := "seg",
    query := fun _ =>
      Except.ok ⟨[("id", [7]), ("p_supervoxel_id", [1]), ("p_root_id", [11])]⟩,
    resolve := fun _ => Except.ok [99],
    deliver := fun _ => Except.ok () }

/-- C4.  Under an unmerged snapshot, a table without segmentation
metadata is not skipped: `check_random_annotations` logs "Skipping …" but
then still calls `query_data_and_check_roots` on the bare table name, and
the table is sampled and validated (here even dispatching a mismatch
notification), contradicting both the claim/spec ("skipped entirely") and
the code's own log message. -/
theorem c4_unmerged_no_seg_table_still_checked :
    checkRandomAnnotationsNew envUnmergedNoSeg "tab" =
      ("tab", Except.ok ⟨true, [(⟨"tab", [7], [11], [99]⟩, none)], []⟩) := by
  decide

/-- A store that grows a second table after the run starts: enumerating
at iteration 0 yields `["a"]`, at any later instant `["a", "b"]`. -/
def envGrowingTables : Env :=
  { getTables := fun i => if i == 0 then ["a"] else ["a", "b"],
    isMerged := true, tableHasAnnotationData := fun _ => true,
    segSource := "seg", query := fun _ => Except.ok ⟨[]⟩,
    resolve := fun xs => Except.ok xs, deliver := fun _ => Except.ok () }

/-- C5, counterexample.  With a table added after the run starts, the
second iteration still checks only the startup list `["a"]`, not the
fresh enumeration `["a", "b"]`: `get_tables()` is called once, before the
loop, refuting "freshly enumerated at that iteration". -/
theorem c5_counterexample :
    splitIterations (runNew envGrowingTables 2) = [["a"], ["a"]] ∧
    envGrowingTables.getTables 1 = ["a", "b"] ∧
    (splitIterations (runNew envGrowingTables 2)).getD 1 [] ≠
      envGrowingTables.getTables 1 := by
  rw [splitIterations_runNew]
  refine ⟨by decide, by decide, by decide⟩

/-- C5, amended.  The annotation-table list is enumerated exactly once,
before the first iteration, and that same list is what every iteration
of the scheduling loop checks; tables added to the store after the run
starts are not picked up within the run. -/
theorem c5_tables_enumerated_once (env : Env) (n : Nat) :
    splitIterations (runNew env n) = List.replicate n (env.getTables 0) :=
  splitIterations_runNew env n

/-- Resolver failing for the first pair's batch and succeeding (with a
mismatch) for the second pair's batch of `dfTwoPairs`. -/
def resolveFailFirst : List Nat → Except String (List Nat) :=
  fun xs =>
    match xs with
    | [1] => Except.error "service down"
    | [4] => Except.ok [77]
    | _ => Except.ok xs

/-- C6.  A resolver failure on one (supervoxel, root-id) pair is caught:
the pair is skipped with the error recorded, while the result for the
remaining pairs of the table is exactly what it is without the failing
pair; and (second conjunct) every table of the enumerated list is still
checked in every iteration, whatever the environment's resolver does. -/
theorem c6_resolver_failure_isolated
    (resolve : List Nat → Except String (List Nat))
    (deliver : Notification → Except String Unit)
    (df : DataFrame) (tableName sv : String) (rest : List String) (e : String)
    (hpair : pairRootCol sv ∈ rootIdColumns df)
    (hfail : resolve (df.getCol sv) = Except.error e) :
    (checkRootIdsAux resolve deliver df tableName (sv :: rest) =
      ⟨(checkRootIdsAux resolve deliver df tableName rest).errorsFound,
       (checkRootIdsAux resolve deliver df tableName rest).notifications,
       e :: (checkRootIdsAux resolve deliver df tableName
         rest).resolveErrors⟩) ∧
    ∀ (env : Env) (m : Nat),
      splitIterations (runNew env m) = List.replicate m (env.getTables 0) := by
  constructor
  · simp [checkRootIdsAux, hpair, hfail]
  · exact fun env m => splitIterations_runNew env m

/-- C6, witness: the failing first pair of `dfTwoPairs` is skipped with
its error recorded while the second pair still reports its mismatch. -/
theorem c6_witness :
    (pairRootCol "a_supervoxel_id" ∈ rootIdColumns dfTwoPairs) ∧
    resolveFailFirst (dfTwoPairs.getCol "a_supervoxel_id") =
      Except.error "service down" ∧
    ((checkRootIdsAux resolveFailFirst deliverOk dfTwoPairs "synapses"
        ["a_supervoxel_id", "b_supervoxel_id"] =
      ⟨(checkRootIdsAux resolveFailFirst deliverOk dfTwoPairs "synapses"
          ["b_supervoxel_id"]).errorsFound,
       (checkRootIdsAux resolveFailFirst deliverOk dfTwoPairs "synapses"
          ["b_supervoxel_id"]).notifications,
       "service down" :: (checkRootIdsAux resolveFailFirst deliverOk
          dfTwoPairs "synapses" ["b_supervoxel_id"]).resolveErrors⟩) ∧
     ∀ (env : Env) (m : Nat),
       splitIterations (runNew env m) = List.replicate m (env.getTables 0)) :=
  ⟨by decide, by decide,
   c6_resolver_failure_isolated resolveFailFirst deliverOk dfTwoPairs
     "synapses" "a_supervoxel_id" ["b_supervoxel_id"] "service down"
     (by decide) (by decide)⟩

/-- C7.  An empty sample short-circuits to a clean outcome (errors-found
false, no notifications), and a sample in which every active pair's
stored root ids equal the resolver's values validates cleanly with no
notification, both through `check_root_ids` directly and through
`query_data_and_check_roots`. -/
theorem c7_clean_outcomes
    (resolve : List Nat → Except String (List Nat))
    (deliver : Notification → Except String Unit)
    (tableName : String) (dfE df : DataFrame)
    (hE : dfE.isEmpty = true)
    (hmatch : ∀ sv ∈ supervoxelColumns df,
      pairRootCol sv ∈ rootIdColumns df →
      resolve (df.getCol sv) = Except.ok (df.getCol (pairRootCol sv))) :
    queryDataAndCheckRoots resolve deliver (Except.ok dfE) tableName =
      Except.ok ⟨false, [], []⟩ ∧
    checkRootIds resolve deliver df tableName = ⟨false, [], []⟩ ∧
    queryDataAndCheckRoots resolve deliver (Except.ok df) tableName =
      Except.ok ⟨false, [], []⟩ := by
  have hck : checkRootIds resolve deliver df tableName = ⟨false, [], []⟩ := by
    rw [checkRootIds, checkRootIdsAux_char]
    have hnotif : (supervoxelColumns df).filterMap
        (pairNotif resolve df tableName) = [] := by
      rw [List.filterMap_eq_nil]
      intro sv hsv
      rw [pairNotif]
      by_cases hp : pairRootCol sv ∈ rootIdColumns df
      · rw [if_pos hp, hmatch sv hsv hp]
        simp [mismatchMask_self_any]
      · rw [if_neg hp]
    have herr : (supervoxelColumns df).filterMap
        (pairResolveError resolve df) = [] := by
      rw [List.filterMap_eq_nil]
      intro sv hsv
      rw [pairResolveError]
      by_cases hp : pairRootCol sv ∈ rootIdColumns df
      · rw [if_pos hp, hmatch sv hsv hp]
      · rw [if_neg hp]
    rw [hnotif, herr]
    rfl
  refine ⟨?_, hck, ?_⟩
  · rw [queryDataAndCheckRoots, hE]
    rfl
  · rw [queryDataAndCheckRoots]
    by_cases hdf : df.isEmpty
    · simp [hdf]
    · simp [hdf, hck]

/-- All-matching one-pair sample: stored `p_root_id` 50 equals the
resolver's value for supervoxel 5. -/
def dfAllMatch : DataFrame :=
  ⟨[("id", [1]), ("p_supervoxel_id", [5]), ("p_root_id", [50])]⟩

def resolveTimesTen : List Nat → Except String (List Nat) :=
  fun xs => Except.ok (xs.map (fun x => x * 10))

/-- C7, witness at a concrete empty frame and a concrete all-matching
frame. -/
theorem c7_witness :
    (DataFrame.mk []).isEmpty = true ∧
    (∀ sv ∈ supervoxelColumns dfAllMatch,
      pairRootCol sv ∈ rootIdColumns dfAllMatch →
      resolveTimesTen (dfAllMatch.getCol sv) =
        Except.ok (dfAllMatch.getCol (pairRootCol sv))) ∧
    (queryDataAndCheckRoots resolveTimesTen deliverOk
        (Except.ok (DataFrame.mk [])) "tbl" = Except.ok ⟨false, [], []⟩ ∧
     checkRootIds resolveTimesTen deliverOk dfAllMatch "tbl" =
       ⟨false, [], []⟩ ∧
     queryDataAndCheckRoots resolveTimesTen deliverOk
        (Except.ok dfAllMatch) "tbl" = Except.ok ⟨false, [], []⟩) :=
  ⟨by decide, by decide,
   c7_clean_outcomes resolveTimesTen deliverOk "tbl" (DataFrame.mk [])
     dfAllMatch (by decide) (by decide)⟩

/-- C8.  A delivery failure is caught inside the dispatcher and logged
(`sendSlackNotification` yields the logged failure instead of raising):
whatever the delivery channel does, the errors-found flag, the content of
every dispatched notification, and the recorded validation errors are
unchanged, and each notification's logged delivery outcome is exactly the
dispatcher's swallowed result — a delivery failure never replaces or
masks the mismatch or error condition that triggered it. -/
theorem c8_delivery_failures_swallowed
    (resolve : List Nat → Except String (List Nat))
    (d1 d2 : Notification → Except String Unit)
    (df : DataFrame) (tableName : String) :
    (checkRootIds resolve d1 df tableName).errorsFound =
      (checkRootIds resolve d2 df tableName).errorsFound ∧
    (checkRootIds resolve d1 df tableName).notifications.map Prod.fst =
      (checkRootIds resolve d2 df tableName).notifications.map Prod.fst ∧
    (checkRootIds resolve d1 df tableName).resolveErrors =
      (checkRootIds resolve d2 df tableName).resolveErrors ∧
    ((checkRootIds resolve d1 df tableName).notifications.all
      (fun p => p.2 == sendSlackNotification (d1 p.1))) = true := by
  simp only [checkRootIds]
  rw [checkRootIdsAux_char, checkRootIdsAux_char]
  refine ⟨rfl, ?_, rfl, ?_⟩
  · rw [List.map_map, List.map_map]
    rfl
  · rw [List.all_eq_true]
    intro n hn
    rw [List.mem_map] at hn
    obtain ⟨m, hm, hEq⟩ := hn
    subst hEq
    simp

/-- C9.  For every finite iteration budget `n`, the scheduling loop
performs exactly `n` iterations and then returns, whatever the per-table
outcomes are (the environment is arbitrary); in particular a budget of 1
performs exactly one iteration over the enumerated tables. -/
theorem c9_finite_budget_exact_iterations (env : Env) (n : Nat) :
    (splitIterations (runNew env n)).length = n ∧
    splitIterations (runNew env 1) = [env.getTables 0] := by
  refine ⟨?_, ?_⟩
  · rw [splitIterations_runNew]
    simp
  · rw [splitIterations_runNew]
    rfl

/-- C10.  The inter-iteration sleep runs after every iteration including
the final one: a budget of `n` incurs exactly `n` sleeps, and for any
positive budget the very last event before `run` returns is the sleep
following the final iteration's table checks. -/
theorem c10_sleep_after_every_iteration (env : Env) (n : Nat) :
    countSleeps (runNew env n) = n ∧
    (runNew env (n + 1)).getLast? = some RunEvent.sleep :=
  ⟨countSleeps_runNew env n, getLast_runNew env n⟩

end CAVECanary
